import Mathlib

/-!
Shallow embedding of the session-resilient course-selection scheduler in
`src/main.py` (sustech-python-qiangke).  Network effects are modelled by
passing the observable outcome of each request (a response message, a
transport error, a session-expiry redirect, ...) as explicit input; the
module-level mutable state (`_courses`, `_success`, `_http["cookies"]`) is
modelled by explicit state passing.
-/

namespace Qiangke

/-- One catalog entry, as built by `get_courses` (src/main.py:263-269):
the remote id, the display name (`rwmc`), and the category keyword. -/
structure Course where
  id : String
  name : String
  kind : String
  deriving DecidableEq

/-- Mutable scheduler state: the module-level `_courses` target queue and
`_success` log of accepted course names (src/main.py:20-21). -/
structure SelState where
  courses : List Course
  success : List String
  deriving DecidableEq

/-- Observable outcome of the cart-add POST in `select`
(src/main.py:357-407): either a JSON `message` field, or some caught
non-fatal transport/parse exception (the final bare `except`). -/
inductive Response where
  | msg (message : List Char)
  | transportError
  deriving DecidableEq

/-- Substring marker "成功" tested first in `select` (src/main.py:378). -/
def successMarker : List Char := "成功".toList

/-- Substring marker "冲突" (src/main.py:385). -/
def conflictMarker : List Char := "冲突".toList

/-- Substring marker "已选" (src/main.py:386). -/
def alreadyMarker : List Char := "已选".toList

/-- Substring marker "已满" (src/main.py:387). -/
def fullMarker : List Char := "已满".toList

/-- Substring marker "超过可选分数" (src/main.py:388). -/
def overLimitMarker : List Char := "超过可选分数".toList

/-- Substring marker "选课请求频率过高" (src/main.py:394). -/
def rateMarker : List Char := "选课请求频率过高".toList

/-- The four control-flow outcomes the spec's Response Classifier maps a
server message to (spec §4.5). -/
inductive Outcome where
  | Accepted
  | PermanentlyRejected
  | RetryAfterBackoff
  | RetryImmediately
  deriving DecidableEq

/-- The response classifier: the exact cascade of Python `in` substring
tests of `select` (src/main.py:378-399), in source order, first match
wins.  Python `a in b` on strings is substring containment, embedded as
`List.IsInfix` on the character lists. -/
def classify (message : List Char) : Outcome :=
  if successMarker <:+: message then Outcome.Accepted
  else if conflictMarker <:+: message ∨ alreadyMarker <:+: message ∨
      fullMarker <:+: message ∨ overLimitMarker <:+: message then
    Outcome.PermanentlyRejected
  else if rateMarker <:+: message then Outcome.RetryAfterBackoff
  else Outcome.RetryImmediately

/-- One invocation of `select` (src/main.py:349-407), given the observable
outcome of its cart-add request.  Returns the new state and the boolean
the function returns (`start` names it `wait`).  Mirrors the source:
empty queue returns `False` before any request (line 352-353); the
success branch pops the head (after the defensive re-check
`course["name"] == _courses[0]["name"]`, line 380) and appends to
`_success`, returning `True`; the conflict branch pops the head and
returns `True`; the rate-limit branch returns `False`; the unknown
branch returns `True`; a caught transport error returns `False`. -/
def select (st : SelState) (resp : Response) : SelState × Bool :=
  match st.courses with
  | [] => (st, false)
  | course :: rest =>
    match resp with
    | Response.transportError => (st, false)
    | Response.msg message =>
      if successMarker <:+: message then
        ({ courses := if course.name = course.name then rest else course :: rest,
           success := st.success ++ [course.name] }, true)
      else if conflictMarker <:+: message ∨ alreadyMarker <:+: message ∨
          fullMarker <:+: message ∨ overLimitMarker <:+: message then
        ({ courses := if course.name = course.name then rest else course :: rest,
           success := st.success }, true)
      else if rateMarker <:+: message then
        (st, false)
      else
        (st, true)

/-- The `select` branch structure re-expressed through `classify`: both
are the same source cascade (src/main.py:378-399). -/
theorem select_msg_eq (course : Course) (rest : List Course)
    (success : List String) (m : List Char) :
    select ⟨course :: rest, success⟩ (Response.msg m) =
      match classify m with
      | Outcome.Accepted => (⟨rest, success ++ [course.name]⟩, true)
      | Outcome.PermanentlyRejected => (⟨rest, success⟩, true)
      | Outcome.RetryAfterBackoff => (⟨course :: rest, success⟩, false)
      | Outcome.RetryImmediately => (⟨course :: rest, success⟩, true) := by
  unfold select classify
  by_cases h1 : successMarker <:+: m
  · simp [h1]
  · by_cases h2 : conflictMarker <:+: m ∨ alreadyMarker <:+: m ∨
        fullMarker <:+: m ∨ overLimitMarker <:+: m
    · simp [h1, h2]
    · by_cases h3 : rateMarker <:+: m
      · simp [h1, h2, h3]
      · simp [h1, h2, h3]

/-- One cycle of the `while len(_courses) > 0` loop in `start`
(src/main.py:421-443), seen from the scheduler: either `select` returns
in time with some observable `Response`, or `asyncio.wait_for` raises
`TimeoutError` (swallowed, state untouched this cycle), or the wrapped
attempt surfaces a fatal `LoginException`. -/
inductive CycleOutcome where
  | attempt (r : Response)
  | timeoutHit
  | loginFail
  deriving DecidableEq

/-- The scheduler loop of `start` (src/main.py:421-444) driven by a finite
script of cycle outcomes.  Result: `none` when the script is exhausted
with the loop still running, otherwise `some (final state, summaryPrinted)`
where `summaryPrinted` records whether execution reached the
`Log.success` summary line after the loop (src/main.py:444) — the
`except LoginException` branch does `return` from inside the loop
(src/main.py:437-439), skipping the summary. -/
def start_run (st : SelState) : List CycleOutcome → Option (SelState × Bool)
  | [] => if st.courses.length > 0 then none else some (st, true)
  | c :: rest =>
    if st.courses.length > 0 then
      match c with
      | CycleOutcome.attempt r => start_run (select st r).1 rest
      | CycleOutcome.timeoutHit => start_run st rest
      | CycleOutcome.loginFail => some (st, false)
    else some (st, true)

/-- Folds a sequence of `select` invocations over the state: the state
trace of the scheduler across cycles (src/main.py:421-443). -/
def run_trace (st : SelState) : List Response → SelState
  | [] => st
  | r :: rs => run_trace (select st r).1 rs

/-- Semester record as returned by `get_semester` and compared with `==`
in `load_cache` (src/main.py:145); only the three fields the program ever
reads (src/main.py:217-219). -/
structure Semester where
  p_xn : String
  p_xq : String
  p_xnxq : String
  deriving DecidableEq

/-- The parsed on-disk cache record (src/main.py:155-156): `id`,
`semester`, `courses`, `selected`. -/
structure CacheSnapshot where
  id : String
  semester : Semester
  courses : List (String × Course)
  selected : List String
  deriving DecidableEq

/-- Python `set(a) == set(b)` on two lists of names
(src/main.py:145): order-independent extensional equality. -/
def sameSet (a b : List String) : Bool :=
  a.all (fun x => decide (x ∈ b)) && b.all (fun x => decide (x ∈ a))

/-- The cache-reuse decision of `load_cache` (src/main.py:137-153):
`true` iff the snapshot is returned as-is (no rebuild), `false` iff the
function falls through to the rebuild at src/main.py:154-177.  `fileExists`
models `os.path.exists(CACHE_PATH)`; `parsed` models the
`json.load` + field access inside the `try` (`none` = any exception,
caught at src/main.py:152); `verify` is `_info["cache_verify"]`. -/
def load_cache_uses_snapshot (fileExists : Bool) (parsed : Option CacheSnapshot)
    (verify : Bool) (id : String) (semester : Semester)
    (selected : List String) : Bool :=
  if fileExists then
    match parsed with
    | none => false
    | some snap =>
      !verify || (snap.id == id && decide (snap.semester = semester) &&
        sameSet snap.selected selected)
  else false

/-- Authentication cookie pair produced by `get_tis_cookies`
(src/main.py:311-314) and installed into `_http["cookies"]`. -/
structure Cookies where
  jsessionid : String
  route : String
  deriving DecidableEq

/-- Observable outcome of one invocation of a wrapped operation under
`reload_cookies` (src/main.py:62-71): it returns a value or raises
`CookieExpireException`. -/
inductive OpResult (α : Type) where
  | ok (a : α)
  | expired
  deriving DecidableEq

/-- Observable outcome of one `get_cookies()` call made by the wrapper
(src/main.py:69): a fresh cookie pair, or a `LoginException` escaping. -/
inductive AuthEvent where
  | newCookies (c : Cookies)
  | loginRaise
  deriving DecidableEq

/-- Result of running the `reload_cookies` wrapper loop on a finite
script: the operation's value together with the cookies active at that
moment, a `LoginException` propagating out of re-authentication, or
`running` when the script is exhausted (the loop never stops on its own).
`expiredEscape` is the outcome an *unwrapped* run could end in; the
wrapper is proved never to produce it. -/
inductive WrapOutcome (α : Type) where
  | done (a : α) (active : Cookies)
  | loginError
  | running
  | expiredEscape
  deriving DecidableEq

/-- Boolean test for the `expiredEscape` constructor of `WrapOutcome`. -/
def escapedExpired {α : Type} : WrapOutcome α → Bool
  | WrapOutcome.expiredEscape => true
  | _ => false

/-- The `reload_cookies` decorator loop (src/main.py:62-71), driven by a
script of per-invocation operation outcomes and a script of
re-authentication outcomes.  `active` is the current `_http["cookies"]`;
a catch of `CookieExpireException` consumes one `AuthEvent`, installs the
new cookies, and loops.  The second component counts how many times the
wrapped operation was invoked. -/
def reload_cookies {α : Type} (active : Cookies) :
    List (OpResult α) → List AuthEvent → WrapOutcome α × Nat
  | [], _ => (WrapOutcome.running, 0)
  | OpResult.ok a :: _, _ => (WrapOutcome.done a active, 1)
  | OpResult.expired :: _, [] => (WrapOutcome.running, 1)
  | OpResult.expired :: _, AuthEvent.loginRaise :: _ => (WrapOutcome.loginError, 1)
  | OpResult.expired :: rest, AuthEvent.newCookies c :: auths =>
    let r := reload_cookies c rest auths
    (r.1, r.2 + 1)

/-- The authenticated landing page URL that the final redirect of the
login protocol must point to (src/main.py:331). -/
def tisMain : String := "https://tis.sustech.edu.cn/authentication/main"

/-- Observable data of one full `get_tis_cookies()` protocol run
(src/main.py:304-334): whether any transport/extraction step raised
(folded into `transportOk`), the `Location` header of the CAS redirect
(src/main.py:321-323), the status and `Location` of the ticket
redemption (src/main.py:330-331), and the cookie pair captured from the
entry endpoint (src/main.py:311-314). -/
structure TisAttempt where
  transportOk : Bool
  casLocation : Option String
  redeemStatus : Nat
  redeemLocation : Option String
  cookies : Cookies
  deriving DecidableEq

/-- One protocol attempt `get_tis_cookies` (src/main.py:304-334): `none`
when any step fails (transport exception, missing CAS `Location`
header, redemption status other than 302, or redemption `Location`
different from the authenticated landing page), `some cookies` only when
every step completed as expected. -/
def get_tis_cookies (a : TisAttempt) : Option Cookies :=
  if a.transportOk = false then none
  else if a.casLocation = none then none
  else if a.redeemStatus ≠ 302 ∨ a.redeemLocation ≠ some tisMain then none
  else some a.cookies

/-- Result of the `get_cookies` retry loop (src/main.py:335-345): a cookie
pair, a `LoginException` raised to the caller, or `looping` when the
attempt script is exhausted with the loop still running. -/
inductive AuthOutcome where
  | got (c : Cookies)
  | loginRaised
  | looping
  deriving DecidableEq

/-- The `while True` retry loop of `get_cookies` (src/main.py:335-345)
driven by a script of protocol attempts.  `retry` is `_info["retry"]`.
The second component counts the warnings emitted (one per failed attempt
when `retry` is true, src/main.py:343). -/
def get_cookies (retry : Bool) : List TisAttempt → AuthOutcome × Nat
  | [] => (AuthOutcome.looping, 0)
  | a :: rest =>
    match get_tis_cookies a with
    | some c => (AuthOutcome.got c, 0)
    | none =>
      if retry then
        let r := get_cookies retry rest
        (r.1, r.2 + 1)
      else (AuthOutcome.loginRaised, 0)

/-- The inter-cycle sleep chosen by `start` (src/main.py:427-436), in
exact (rational) time-units: when `select` returned `True` (`wait`), sleep
`_info["timeout"] - (end - start)` if positive, otherwise nothing; when it
returned `False`, sleep the fixed `0.1`. -/
def cycle_sleep (timeout elapsed : ℚ) (wait : Bool) : ℚ :=
  if wait then (if timeout - elapsed > 0 then timeout - elapsed else 0)
  else 1/10

/-- Sample catalog entry used to instantiate witnesses and
counterexamples at concrete inputs. -/
def cSample : Course := ⟨"10001", "高等数学", "bxxk"⟩

/-- Helper: one `select` invocation either leaves the queue unchanged or
removes exactly the head (src/main.py:380-381, 390-391). -/
theorem select_courses_cases (st : SelState) (r : Response) :
    (select st r).1.courses = st.courses ∨
      (select st r).1.courses = st.courses.tail := by
  obtain ⟨cs, suc⟩ := st
  cases cs with
  | nil => left; rfl
  | cons course rest =>
    cases r with
    | transportError => left; rfl
    | msg m =>
      rw [select_msg_eq]
      cases classify m <;> simp

/-- Helper: one `select` invocation only ever appends to the success log
(src/main.py:382). -/
theorem select_success_extend (st : SelState) (r : Response) :
    ∃ ap, (select st r).1.success = st.success ++ ap := by
  obtain ⟨cs, suc⟩ := st
  cases cs with
  | nil => exact ⟨[], by simp [select]⟩
  | cons course rest =>
    cases r with
    | transportError => exact ⟨[], by simp [select]⟩
    | msg m =>
      rw [select_msg_eq]
      cases classify m
      · exact ⟨[course.name], rfl⟩
      · exact ⟨[], by simp⟩
      · exact ⟨[], by simp⟩
      · exact ⟨[], by simp⟩

/-- C3 (confirmed): the classifier applies its substring tests in fixed
priority order with first match winning, so any message containing the
success marker "成功" is classified `Accepted`, whatever else it
contains (src/main.py:378). -/
theorem classify_success_priority (m : List Char)
    (h : successMarker <:+: m) : classify m = Outcome.Accepted := by
  unfold classify
  rw [if_pos h]

/-- C3 witness: the spec example "选课成功, 冲突" contains the success
marker and is classified `Accepted` even though it also contains the
conflict marker. -/
theorem classify_success_priority_witness :
    successMarker <:+: "选课成功, 冲突".toList ∧
      classify "选课成功, 冲突".toList = Outcome.Accepted :=
  ⟨by decide, classify_success_priority _ (by decide)⟩

/-- C4 (confirmed): a message containing one of the four
permanent-rejection markers and not the success marker is classified
`PermanentlyRejected`, and `select` removes the head entry from the
queue without appending it to the success log, returning `True`
(src/main.py:384-392). -/
theorem reject_removes_head (course : Course) (rest : List Course)
    (success : List String) (m : List Char)
    (hrej : conflictMarker <:+: m ∨ alreadyMarker <:+: m ∨
      fullMarker <:+: m ∨ overLimitMarker <:+: m)
    (hnosucc : ¬ successMarker <:+: m) :
    classify m = Outcome.PermanentlyRejected ∧
      select ⟨course :: rest, success⟩ (Response.msg m) =
        (⟨rest, success⟩, true) := by
  have hc : classify m = Outcome.PermanentlyRejected := by
    unfold classify
    rw [if_neg hnosucc, if_pos hrej]
  refine ⟨hc, ?_⟩
  rw [select_msg_eq, hc]

/-- C4 witness: the spec example "该课程已满" is permanently rejected and
pops the head of a one-element queue without touching the success log. -/
theorem reject_removes_head_witness :
    classify "该课程已满".toList = Outcome.PermanentlyRejected ∧
      select ⟨[cSample], []⟩ (Response.msg "该课程已满".toList) =
        (⟨[], []⟩, true) :=
  reject_removes_head cSample [] [] _ (by decide) (by decide)

/-- C10 (confirmed): with an empty target queue, `select` returns `False`
with the state untouched, and the result does not depend on the response
at all — no request is issued and the head access below the guard is
never reached (src/main.py:352-353). -/
theorem select_empty_queue (success : List String) (resp : Response) :
    select ⟨[], success⟩ resp = (⟨[], success⟩, false) := rfl

/-- C1 counterexample: the claim says the needs-explicit-wait signal is
`false` for `Accepted` and `true` for a caught transport error; on the
code it is `true` for an accepted response (src/main.py:383) and `false`
for a caught transport error (src/main.py:405-407). -/
theorem select_wait_signal_cex :
    (classify "选课成功".toList = Outcome.Accepted ∧
      (select ⟨[cSample], []⟩ (Response.msg "选课成功".toList)).2 = true) ∧
      (select ⟨[cSample], []⟩ Response.transportError).2 = false := by
  decide

/-- C1 (amended): with a non-empty queue, the boolean returned by
`select` is `true` for `Accepted`, `true` for `PermanentlyRejected`,
`false` for `RetryAfterBackoff`, `true` for `RetryImmediately`, and
`false` for a caught non-fatal transport error
(src/main.py:383, 392, 396, 400, 407). -/
theorem select_wait_signal (st : SelState) (m : List Char)
    (h : st.courses ≠ []) :
    (select st (Response.msg m)).2 =
      (match classify m with
       | Outcome.RetryAfterBackoff => false
       | _ => true) ∧
      (select st Response.transportError).2 = false := by
  obtain ⟨cs, suc⟩ := st
  cases cs with
  | nil => exact absurd rfl h
  | cons course rest =>
    refine ⟨?_, rfl⟩
    rw [select_msg_eq]
    cases classify m <;> rfl

/-- C1 witness: the amended signal mapping evaluated on a concrete
one-element queue and the message "成功". -/
theorem select_wait_signal_witness :
    (select ⟨[cSample], []⟩ (Response.msg "成功".toList)).2 =
      (match classify "成功".toList with
       | Outcome.RetryAfterBackoff => false
       | _ => true) ∧
      (select ⟨[cSample], []⟩ Response.transportError).2 = false :=
  select_wait_signal ⟨[cSample], []⟩ "成功".toList (by simp)

/-- C2 counterexample: a run whose single cycle raises `LoginException`
terminates with the queue still holding its target and the summary line
never reached — the `return` at src/main.py:439 exits `start` before the
`Log.success` at src/main.py:444, contradicting the claim that both
termination paths print the summary. -/
theorem start_login_skips_summary_cex :
    start_run ⟨[cSample], []⟩ [CycleOutcome.loginFail] =
      some (⟨[cSample], []⟩, false) := by
  decide

/-- C2 (amended): whenever the scheduler loop terminates, the final
summary of accepted course names is printed if and only if the
termination path is the queue draining to empty; a fatal authentication
failure returns from inside the loop without printing it
(src/main.py:437-444). -/
theorem start_summary_iff_drained (st : SelState)
    (script : List CycleOutcome) (st' : SelState) (printed : Bool)
    (h : start_run st script = some (st', printed)) :
    printed = true ↔ st'.courses = [] := by
  induction script generalizing st with
  | nil =>
    unfold start_run at h
    by_cases hc : st.courses.length > 0
    · simp [hc] at h
    · rw [if_neg hc] at h
      simp only [Option.some.injEq, Prod.mk.injEq] at h
      obtain ⟨h1, h2⟩ := h
      subst h1
      subst h2
      have hz : st.courses.length = 0 := by omega
      rw [List.length_eq_zero] at hz
      simp [hz]
  | cons c rest ih =>
    unfold start_run at h
    by_cases hc : st.courses.length > 0
    · rw [if_pos hc] at h
      cases c with
      | attempt r => exact ih _ h
      | timeoutHit => exact ih _ h
      | loginFail =>
        simp only [Option.some.injEq, Prod.mk.injEq] at h
        obtain ⟨h1, h2⟩ := h
        subst h1
        subst h2
        have hne : st.courses ≠ [] := by
          intro he
          rw [he] at hc
          simp at hc
        simp [hne]
    · rw [if_neg hc] at h
      simp only [Option.some.injEq, Prod.mk.injEq] at h
      obtain ⟨h1, h2⟩ := h
      subst h1
      subst h2
      have hz : st.courses.length = 0 := by omega
      rw [List.length_eq_zero] at hz
      simp [hz]

/-- C2 witness: the amended theorem applied to the already-drained run of
the empty script, whose summary is printed. -/
theorem start_summary_iff_drained_witness :
    start_run ⟨[], []⟩ [] = some (⟨[], []⟩, true) ∧
      (true = true ↔ (SelState.mk [] []).courses = []) :=
  ⟨rfl, start_summary_iff_drained ⟨[], []⟩ [] ⟨[], []⟩ true rfl⟩

/-- Helper: Python set equality of two name lists holds exactly when the
two lists have the same members. -/
theorem sameSet_iff (a b : List String) :
    sameSet a b = true ↔ ∀ x, x ∈ a ↔ x ∈ b := by
  simp only [sameSet, Bool.and_eq_true, List.all_eq_true, decide_eq_true_eq]
  constructor
  · rintro ⟨h1, h2⟩ x
    exact ⟨fun hx => h1 x hx, fun hx => h2 x hx⟩
  · intro h
    exact ⟨fun x hx => (h x).1 hx, fun x hx => (h x).2 hx⟩

/-- C5 (confirmed): the persisted snapshot is used without rebuild
exactly when the cache file exists, parses, and either validation is
disabled or identity, semester and selected set (order-independent) all
match the live values; every other case falls through to the rebuild
(src/main.py:137-156). -/
theorem load_cache_decision_iff (fileExists : Bool)
    (parsed : Option CacheSnapshot) (verify : Bool) (id : String)
    (semester : Semester) (selected : List String) :
    load_cache_uses_snapshot fileExists parsed verify id semester selected
        = true ↔
      (fileExists = true ∧ ∃ snap, parsed = some snap ∧
        (verify = false ∨ (snap.id = id ∧ snap.semester = semester ∧
          ∀ x, x ∈ snap.selected ↔ x ∈ selected))) := by
  cases fileExists with
  | false => simp [load_cache_uses_snapshot]
  | true =>
    cases parsed with
    | none => simp [load_cache_uses_snapshot]
    | some snap =>
      cases verify with
      | false => simp [load_cache_uses_snapshot]
      | true =>
        simp [load_cache_uses_snapshot, sameSet_iff, Bool.and_eq_true,
          and_assoc]

/-- C9 (confirmed): across any sequence of scheduler cycles the target
queue length is non-increasing and the success log is append-only, and
each single cycle either leaves the queue unchanged or removes exactly
its head (src/main.py:376-400, 421-443). -/
theorem scheduler_monotone (st : SelState) (rs : List Response) :
    ((run_trace st rs).courses.length ≤ st.courses.length ∧
      ∃ ap, (run_trace st rs).success = st.success ++ ap) ∧
      ∀ r, (select st r).1.courses = st.courses ∨
        (select st r).1.courses = st.courses.tail := by
  refine ⟨?_, fun r => select_courses_cases st r⟩
  induction rs generalizing st with
  | nil => exact ⟨le_refl _, ⟨[], by simp [run_trace]⟩⟩
  | cons r rs ih =>
    obtain ⟨ihlen, ap2, ihsuc⟩ := ih (select st r).1
    constructor
    · refine le_trans ihlen ?_
      rcases select_courses_cases st r with h | h
      · rw [h]
      · rw [h, List.length_tail]
        omega
    · obtain ⟨ap1, h1⟩ := select_success_extend st r
      refine ⟨ap1 ++ ap2, ?_⟩
      show (run_trace (select st r).1 rs).success = st.success ++ (ap1 ++ ap2)
      rw [ihsuc, h1, List.append_assoc]

/-- C6 (confirmed): the `reload_cookies` wrapper never lets the
session-expiry signal escape; when the operation signals expiry n times
and then succeeds, the wrapper re-authenticates once per signal,
installs each new cookie pair as the active one, invokes the operation
exactly n + 1 times, and returns its result paired with the last
installed cookies; a `LoginException` out of re-authentication
propagates immediately (src/main.py:62-71). -/
theorem reload_cookies_resilient {α : Type} :
    (∀ (active : Cookies) (script : List (OpResult α))
        (auths : List AuthEvent),
      escapedExpired (reload_cookies active script auths).1 = false) ∧
      (∀ (active : Cookies) (ts : List Cookies) (a : α),
        reload_cookies active
            (List.replicate ts.length OpResult.expired ++ [OpResult.ok a])
            (ts.map AuthEvent.newCookies)
          = (WrapOutcome.done a (ts.getLastD active), ts.length + 1)) ∧
      (∀ (active : Cookies) (rest : List (OpResult α))
          (auths : List AuthEvent),
        reload_cookies active (OpResult.expired :: rest)
            (AuthEvent.loginRaise :: auths)
          = (WrapOutcome.loginError, 1)) := by
  refine ⟨?_, ?_, ?_⟩
  · intro active script auths
    induction script generalizing active auths with
    | nil => rfl
    | cons hd tl ih =>
      cases hd with
      | ok a => rfl
      | expired =>
        cases auths with
        | nil => rfl
        | cons ev evs =>
          cases ev with
          | newCookies c => simpa [reload_cookies] using ih c evs
          | loginRaise => rfl
  · intro active ts a
    induction ts generalizing active with
    | nil => rfl
    | cons c cs ih =>
      rw [List.getLastD_cons]
      simp [List.replicate_succ, reload_cookies, ih c]
  · intro active rest auths
    rfl

/-- Helper: `get_tis_cookies` yields cookies only when every protocol
step completed as expected (src/main.py:304-334). -/
theorem get_tis_cookies_some {a : TisAttempt} {c : Cookies}
    (h : get_tis_cookies a = some c) :
    a.transportOk = true ∧ a.casLocation ≠ none ∧
      a.redeemStatus = 302 ∧ a.redeemLocation = some tisMain ∧
      c = a.cookies := by
  unfold get_tis_cookies at h
  by_cases h1 : a.transportOk = false
  · simp [h1] at h
  · rw [if_neg h1] at h
    by_cases h2 : a.casLocation = none
    · simp [h2] at h
    · rw [if_neg h2] at h
      by_cases h3 : a.redeemStatus ≠ 302 ∨ a.redeemLocation ≠ some tisMain
      · simp [h3] at h
      · rw [if_neg h3] at h
        push_neg at h3
        refine ⟨by simpa using h1, h2, h3.1, h3.2, ?_⟩
        exact (Option.some.injEq _ _ ▸ h).symm

/-- C7 (confirmed): on a failed protocol attempt `get_cookies` raises
`AuthenticationError` immediately when the retry flag is false; when the
flag is true it retries the entire protocol through any number of
failures, emitting one warning per failure, until an attempt succeeds;
and it ever returns cookies only from an attempt on which every protocol
step completed as expected (src/main.py:335-345). -/
theorem get_cookies_retry_policy :
    (∀ (a : TisAttempt) (rest : List TisAttempt),
      get_tis_cookies a = none →
      get_cookies false (a :: rest) = (AuthOutcome.loginRaised, 0)) ∧
      (∀ (fails : List TisAttempt) (a : TisAttempt) (c : Cookies),
        (∀ x ∈ fails, get_tis_cookies x = none) →
        get_tis_cookies a = some c →
        get_cookies true (fails ++ [a]) = (AuthOutcome.got c, fails.length)) ∧
      (∀ (retry : Bool) (script : List TisAttempt) (c : Cookies) (w : Nat),
        get_cookies retry script = (AuthOutcome.got c, w) →
        ∃ x ∈ script, get_tis_cookies x = some c ∧ x.transportOk = true ∧
          x.casLocation ≠ none ∧ x.redeemStatus = 302 ∧
          x.redeemLocation = some tisMain) := by
  refine ⟨?_, ?_, ?_⟩
  · intro a rest h
    simp [get_cookies, h]
  · intro fails a c hall hsucc
    induction fails with
    | nil => simp [get_cookies, hsucc]
    | cons f fs ih =>
      have hf : get_tis_cookies f = none := hall f (by simp)
      have ihr := ih (fun x hx => hall x (by simp [hx]))
      simp [get_cookies, hf, ihr]
  · intro retry script c w h
    induction script generalizing w with
    | nil => simp [get_cookies] at h
    | cons x xs ih =>
      unfold get_cookies at h
      cases hx : get_tis_cookies x with
      | some c2 =>
        rw [hx] at h
        simp only [Prod.mk.injEq, AuthOutcome.got.injEq] at h
        obtain ⟨rfl, -⟩ := h
        obtain ⟨p1, p2, p3, p4, p5⟩ := get_tis_cookies_some hx
        exact ⟨x, by simp, by rw [hx, p5], p1, p2, p3, p4⟩
      | none =>
        rw [hx] at h
        cases retry with
        | false => simp at h
        | true =>
          simp only [if_true] at h
          simp only [Prod.mk.injEq] at h
          obtain ⟨h1, -⟩ := h
          have hpair : get_cookies true xs =
              (AuthOutcome.got c, (get_cookies true xs).2) := by
            rw [← h1]
          obtain ⟨y, hy, hrest⟩ := ih _ hpair
          exact ⟨y, by simp [hy], hrest⟩

/-- C7 witness: with the retry flag false a single failed attempt (its
CAS redirect header missing) raises immediately; with the flag true the
same failed attempt is retried, one warning is counted, and the
following complete attempt returns its cookies. -/
theorem get_cookies_retry_policy_witness :
    get_cookies false
        [TisAttempt.mk true none 302 (some tisMain) (Cookies.mk "s1" "r1")]
      = (AuthOutcome.loginRaised, 0) ∧
      get_cookies true
          [TisAttempt.mk true none 302 (some tisMain) (Cookies.mk "s1" "r1"),
           TisAttempt.mk true (some "ticket") 302 (some tisMain)
             (Cookies.mk "s2" "r2")]
        = (AuthOutcome.got (Cookies.mk "s2" "r2"), 1) :=
  ⟨get_cookies_retry_policy.1 _ [] (by decide),
   get_cookies_retry_policy.2.1
     [TisAttempt.mk true none 302 (some tisMain) (Cookies.mk "s1" "r1")]
     _ _ (by decide) (by decide)⟩

/-- C8 (confirmed): when `select` returned `True` and the attempt took
`t < timeout`, the scheduler sleeps exactly `timeout - t`; when the
remainder is not positive it sleeps nothing; when `select` returned
`False` it sleeps the fixed `0.1` (src/main.py:427-436). -/
theorem cycle_sleep_arith (timeout t : ℚ) :
    (t < timeout → cycle_sleep timeout t true = timeout - t) ∧
      (timeout - t ≤ 0 → cycle_sleep timeout t true = 0) ∧
      cycle_sleep timeout t false = 1/10 := by
  refine ⟨?_, ?_, rfl⟩
  · intro h
    have hp : timeout - t > 0 := by linarith
    simp [cycle_sleep, hp]
  · intro h
    have hp : ¬ timeout - t > 0 := by linarith
    simp [cycle_sleep, hp]

/-- C8 witness: the default deadline 1.2 with an attempt of 1 time-unit
sleeps 0.2; an over-deadline remainder is clamped to zero; a `False`
signal sleeps 0.1. -/
theorem cycle_sleep_arith_witness :
    cycle_sleep (6/5) 1 true = 6/5 - 1 ∧
      cycle_sleep 1 (6/5) true = 0 ∧
      cycle_sleep (6/5) 1 false = 1/10 :=
  ⟨(cycle_sleep_arith (6/5) 1).1 (by norm_num),
   (cycle_sleep_arith 1 (6/5)).2.1 (by norm_num),
   (cycle_sleep_arith (6/5) 1).2.2⟩

end Qiangke
